import Mathlib

/-!
Verification development for the temporal-sdk-issue repository.

We give a shallow embedding of `src/definitions.py`: the dataclasses
`TemporalPythonSdkIssue300Input` / `TemporalPythonSdkIssue300Output`, the
leaf activity `temporal_python_sdk_issue_300`, and the workflow method
`TemporalPythonSdkIssue300.run`.

Modelling choices:
- Python `float` durations are modelled as `ℚ` (every value occurring in the
  program — 5.0, 60, 600, 1000·delay — is exactly representable, so no
  floating-point rounding is in play).
- Python `int` counts are modelled as `ℤ`; `range n` is empty for `n ≤ 0`,
  mirrored by `Int.toNat`.
- `timedelta` values are modelled as their length in seconds (`ℚ`).
- The workflow body is deterministic up to the outcome the durable runtime
  delivers for each issued child.  We therefore model the run as a function of
  the input and an environment `env : Nat → ChildOutcome` giving the outcome of
  the i-th issued child (in issue order: activities first, then child
  workflows, exactly as the `workflows` list is built in the source).
- `await asyncio.gather(*workflows)` (with the default
  `return_exceptions=False`) returns the list of all child values when every
  child completes, and otherwise propagates the exception of a failed child —
  an exception that is the failing child's own, hence carries that child's
  identity (its position in the `workflows` list and whether it was issued via
  `execute_activity` or `execute_child_workflow`).  We model the propagated
  error as that pair.  `gather` is determinised to surface the least failing
  index; every theorem about failures below is stated so that it holds for any
  choice among the failing children (unique-failure hypotheses).
- Side effects (`print` lines, wall-clock sleeping) are recorded as data: the
  run trace records the slept duration, the activity records how long it
  blocks.
-/

namespace Issue300

/-- Name constant from definitions.py line 12. -/
def WORKFLOW_NAME : String := "temporal-sdk-python-issue-300"

/-- Name constant from definitions.py line 13; the same string as
`WORKFLOW_NAME`. -/
def ACTIVITY_NAME : String := "temporal-sdk-python-issue-300"

/-- Constant `ONE_MINUTE = timedelta(minutes=1)`, in seconds. -/
def ONE_MINUTE : ℚ := 60

/-- Constant `TEN_MINUTES = timedelta(minutes=10)`, in seconds. -/
def TEN_MINUTES : ℚ := 600

/-- Mirror of `temporalio.common.RetryPolicy`, restricted to the single field
the program sets. -/
structure RetryPolicy where
  maximum_attempts : ℤ
  deriving Repr, DecidableEq

/-- Constant `NO_RETRY = RetryPolicy(maximum_attempts=1)`. -/
def NO_RETRY : RetryPolicy := { maximum_attempts := 1 }

/-- Dataclass `TemporalPythonSdkIssue300Input` (text, timeout, sub_workflows,
sub_activities), the spec's TaskInput. -/
structure TemporalPythonSdkIssue300Input where
  text : String
  timeout : ℚ
  sub_workflows : ℤ
  sub_activities : ℤ
  deriving Repr, DecidableEq

/-- Dataclass `TemporalPythonSdkIssue300Output`, the spec's TaskOutput. -/
structure TemporalPythonSdkIssue300Output where
  text : String
  deriving Repr, DecidableEq

/-- One execution of the leaf activity: how long it blocks its worker slot and
the value it returns. -/
structure ActivityExecution where
  blockedFor : ℚ
  ret : ℚ
  deriving Repr, DecidableEq

/-- The activity function `temporal_python_sdk_issue_300` (registered under
`ACTIVITY_NAME`): it blocks for `data.timeout` seconds via `sleep` and returns
`1000 * data.timeout`. -/
def temporal_python_sdk_issue_300 (data : TemporalPythonSdkIssue300Input) :
    ActivityExecution :=
  { blockedFor := data.timeout
    ret := 1000 * data.timeout }

/-- The name under which the activity function is registered, from the
decorator `@activity.defn(name=ACTIVITY_NAME)`. -/
def registeredActivityName : String := ACTIVITY_NAME

/-- Whether a child of the fan-out was issued via `execute_activity` or
`execute_child_workflow`. -/
inductive ChildKind where
  | activity
  | task
  deriving Repr, DecidableEq

/-- One child invocation issued by the workflow body, with exactly the
arguments the source passes. -/
inductive ChildCall where
  | activityCall (name : String) (arg : TemporalPythonSdkIssue300Input)
      (start_to_close_timeout : ℚ)
  | childWorkflowCall (workflow : String) (arg : TemporalPythonSdkIssue300Input)
      (execution_timeout : ℚ) (run_timeout : ℚ) (retry_policy : RetryPolicy)
  deriving Repr, DecidableEq

/-- Kind of a child call. -/
def ChildCall.kind : ChildCall → ChildKind
  | .activityCall .. => .activity
  | .childWorkflowCall .. => .task

/-- Input payload carried by a child call. -/
def ChildCall.arg : ChildCall → TemporalPythonSdkIssue300Input
  | .activityCall _ a _ => a
  | .childWorkflowCall _ a _ _ _ => a

/-- Operation name a child call is issued under (the first argument of
`execute_activity` resp. the `workflow=` argument of
`execute_child_workflow`). -/
def ChildCall.calledName : ChildCall → String
  | .activityCall n _ _ => n
  | .childWorkflowCall w _ _ _ _ => w

/-- Start-to-close timeout of an activity call, if this is one. -/
def ChildCall.stcTimeout : ChildCall → Option ℚ
  | .activityCall _ _ t => some t
  | .childWorkflowCall .. => none

/-- Execution timeout of a child-workflow call, if this is one. -/
def ChildCall.execTimeout : ChildCall → Option ℚ
  | .activityCall .. => none
  | .childWorkflowCall _ _ et _ _ => some et

/-- Run timeout of a child-workflow call, if this is one. -/
def ChildCall.runTimeout : ChildCall → Option ℚ
  | .activityCall .. => none
  | .childWorkflowCall _ _ _ rt _ => some rt

/-- Retry policy of a child-workflow call, if this is one. -/
def ChildCall.retryPolicyOf : ChildCall → Option RetryPolicy
  | .activityCall .. => none
  | .childWorkflowCall _ _ _ _ rp => some rp

/-- Python `range(n)` over an `int`: the indices `0, …, n-1`, empty for
`n ≤ 0`. -/
def pyRange (n : ℤ) : List ℕ := List.range n.toNat

/-- The activity part of the fan-out, from the first list comprehension of
`run` (lines 53–58): `sub_activities` copies of
`execute_activity(WORKFLOW_NAME, data, start_to_close_timeout=timedelta(minutes=10))`
(the loop index is unused there). -/
def activityCalls (data : TemporalPythonSdkIssue300Input) : List ChildCall :=
  (pyRange data.sub_activities).map fun _ =>
    ChildCall.activityCall WORKFLOW_NAME data TEN_MINUTES

/-- The child-workflow part of the fan-out, from the second list comprehension
of `run` (lines 60–74): for each `i in range(sub_workflows)` a
`execute_child_workflow` of `WORKFLOW_NAME` on the derived input
`(text = f"{data.text}-{i}", timeout = data.timeout, sub_workflows = 0,
sub_activities = 0)` with one-minute execution and run timeouts and
`NO_RETRY`. -/
def childWorkflowCalls (data : TemporalPythonSdkIssue300Input) : List ChildCall :=
  (pyRange data.sub_workflows).map fun i =>
    ChildCall.childWorkflowCall WORKFLOW_NAME
      { text := data.text ++ "-" ++ toString i
        timeout := data.timeout
        sub_workflows := 0
        sub_activities := 0 }
      ONE_MINUTE ONE_MINUTE NO_RETRY

/-- The full `workflows` list built by `run`: activities first, then child
workflows, in issue order. -/
def fanOut (data : TemporalPythonSdkIssue300Input) : List ChildCall :=
  activityCalls data ++ childWorkflowCalls data

/-- A value returned by a completed child: a float from an activity, an output
dataclass from a child workflow. -/
inductive ChildValue where
  | num (v : ℚ)
  | outp (o : TemporalPythonSdkIssue300Output)
  deriving Repr, DecidableEq

/-- Outcome the durable runtime delivers for one issued child: a value, a
(permanent) failure, or a timeout. -/
inductive ChildOutcome where
  | value (v : ChildValue)
  | failed
  | timedOut
  deriving Repr, DecidableEq

/-- Whether a child outcome is a successful completion. -/
def ChildOutcome.isValue : ChildOutcome → Bool
  | .value _ => true
  | .failed => false
  | .timedOut => false

/-- Model of `await asyncio.gather(*workflows)` with the default
`return_exceptions=False`: if every outcome is a value, the list of values in
issue order; otherwise the error of a failing child, tagged with that child's
position (determinised to the least failing position). -/
def gather : List ChildOutcome → Except (ℕ × ChildOutcome) (List ChildValue)
  | [] => Except.ok []
  | o :: rest =>
    match o with
    | .value v =>
      match gather rest with
      | Except.ok vs => Except.ok (v :: vs)
      | Except.error (i, e) => Except.error (i + 1, e)
    | .failed => Except.error (0, ChildOutcome.failed)
    | .timedOut => Except.error (0, ChildOutcome.timedOut)

/-- Terminal state of one run of the workflow: completed with an output, or
failed / timed out blaming a specific child by fan-out position and kind. -/
inductive RunResult where
  | Completed (output : TemporalPythonSdkIssue300Output)
  | Failed (idx : ℕ) (kind : ChildKind)
  | TimedOut (idx : ℕ) (kind : ChildKind)
  deriving Repr, DecidableEq

/-- Whether a run result is a completion. -/
def RunResult.isCompleted : RunResult → Bool
  | .Completed _ => true
  | .Failed _ _ => false
  | .TimedOut _ _ => false

/-- Everything one execution of the workflow body does: the awaited initial
sleep, the children it issues, and its terminal result. -/
structure RunTrace where
  sleptFor : ℚ
  children : List ChildCall
  result : RunResult
  deriving Repr, DecidableEq

/-- Kind of the child at position `i` of the fan-out (default value is never
reached: `gather` only reports positions below the list length). -/
def kindAt (data : TemporalPythonSdkIssue300Input) (i : ℕ) : ChildKind :=
  ((fanOut data)[i]?.map ChildCall.kind).getD ChildKind.task

/-- The workflow method `TemporalPythonSdkIssue300.run` (definitions.py lines
41–79): await `asyncio.sleep(data.timeout)`; build the `workflows` list
(activities then child workflows); `await asyncio.gather(*workflows)`; on
success return `TemporalPythonSdkIssue300Output(text=f"{data.timeout}s
later...")`, on a child failure the raised exception fails the workflow,
blaming that child. -/
def TemporalPythonSdkIssue300.run (data : TemporalPythonSdkIssue300Input)
    (env : ℕ → ChildOutcome) : RunTrace :=
  let workflows := fanOut data
  let outcomes := (List.range workflows.length).map env
  { sleptFor := data.timeout
    children := workflows
    result :=
      match gather outcomes with
      | Except.ok _ =>
          RunResult.Completed { text := toString data.timeout ++ "s later..." }
      | Except.error (i, ChildOutcome.timedOut) => RunResult.TimedOut i (kindAt data i)
      | Except.error (i, _) => RunResult.Failed i (kindAt data i) }

/-- The input `trigger` in main.py builds for
`trigger(timeout=5.0, sub_workflows=2, sub_activities=3)` (text is always
"hello world"). -/
def demoInput : TemporalPythonSdkIssue300Input :=
  { text := "hello world", timeout := 5, sub_workflows := 2, sub_activities := 3 }

/-- An environment in which every child completes, returning the activity
value for delay 5. -/
def envAllOk : ℕ → ChildOutcome := fun _ => ChildOutcome.value (ChildValue.num 5000)

/-- An environment in which the child at fan-out position 1 times out and all
other children complete. -/
def envTaskTimedOut : ℕ → ChildOutcome := fun n =>
  if n = 1 then ChildOutcome.timedOut else ChildOutcome.value (ChildValue.num 5000)

/-- A concrete input with zero fan-out in both dimensions. -/
def zeroFanOutInput : TemporalPythonSdkIssue300Input :=
  { text := "x", timeout := 2, sub_workflows := 0, sub_activities := 0 }

/-- A concrete input with one activity child and one child task. -/
def oneEachInput : TemporalPythonSdkIssue300Input :=
  { text := "hello world", timeout := 5, sub_workflows := 1, sub_activities := 1 }

/-! ## Basic lemmas about the embedding -/

theorem length_activityCalls (data : TemporalPythonSdkIssue300Input) :
    (activityCalls data).length = data.sub_activities.toNat := by
  simp [activityCalls, pyRange]

theorem length_childWorkflowCalls (data : TemporalPythonSdkIssue300Input) :
    (childWorkflowCalls data).length = data.sub_workflows.toNat := by
  simp [childWorkflowCalls, pyRange]

theorem length_fanOut (data : TemporalPythonSdkIssue300Input) :
    (fanOut data).length = data.sub_activities.toNat + data.sub_workflows.toNat := by
  simp [fanOut, length_activityCalls, length_childWorkflowCalls]

theorem run_result_eq (data : TemporalPythonSdkIssue300Input) (env : ℕ → ChildOutcome) :
    (TemporalPythonSdkIssue300.run data env).result =
      match gather ((List.range (fanOut data).length).map env) with
      | Except.ok _ =>
          RunResult.Completed { text := toString data.timeout ++ "s later..." }
      | Except.error (i, ChildOutcome.timedOut) => RunResult.TimedOut i (kindAt data i)
      | Except.error (i, _) => RunResult.Failed i (kindAt data i) := rfl

theorem run_children_eq (data : TemporalPythonSdkIssue300Input) (env : ℕ → ChildOutcome) :
    (TemporalPythonSdkIssue300.run data env).children = fanOut data := rfl

theorem run_sleptFor_eq (data : TemporalPythonSdkIssue300Input) (env : ℕ → ChildOutcome) :
    (TemporalPythonSdkIssue300.run data env).sleptFor = data.timeout := rfl

theorem gather_ok_of_forall (os : List ChildOutcome)
    (h : ∀ o ∈ os, o.isValue = true) : ∃ vs, gather os = Except.ok vs := by
  induction os with
  | nil => exact ⟨[], rfl⟩
  | cons o rest ih =>
    obtain ⟨vs, hvs⟩ := ih fun x hx => h x (List.mem_cons_of_mem _ hx)
    have ho := h o (List.mem_cons_self _ _)
    cases o with
    | value v => exact ⟨v :: vs, by simp [gather, hvs]⟩
    | failed => simp [ChildOutcome.isValue] at ho
    | timedOut => simp [ChildOutcome.isValue] at ho

theorem forall_isValue_of_gather_ok (os : List ChildOutcome) (vs : List ChildValue)
    (h : gather os = Except.ok vs) : ∀ o ∈ os, o.isValue = true := by
  induction os generalizing vs with
  | nil => simp
  | cons o rest ih =>
    cases o with
    | value v =>
      cases hrest : gather rest with
      | ok vs2 =>
        intro x hx
        rcases List.mem_cons.mp hx with rfl | hx2
        · rfl
        · exact ih vs2 hrest x hx2
      | error e =>
        obtain ⟨i, e2⟩ := e
        simp [gather, hrest] at h
    | failed => simp [gather] at h
    | timedOut => simp [gather] at h

theorem gather_error_of_unique (os : List ChildOutcome) (i : ℕ) (hi : i < os.length)
    (hf : (os.get ⟨i, hi⟩).isValue = false)
    (hok : ∀ j, (hj : j < os.length) → j ≠ i → (os.get ⟨j, hj⟩).isValue = true) :
    gather os = Except.error (i, os.get ⟨i, hi⟩) := by
  induction os generalizing i with
  | nil => exact absurd hi (Nat.not_lt_zero i)
  | cons o rest ih =>
    cases o with
    | value v =>
      cases i with
      | zero => simp [ChildOutcome.isValue] at hf
      | succ i2 =>
        have hi2 : i2 < rest.length := Nat.lt_of_succ_lt_succ hi
        have hf2 : (rest.get ⟨i2, hi2⟩).isValue = false := hf
        have hok2 : ∀ j, (hj : j < rest.length) → j ≠ i2 →
            (rest.get ⟨j, hj⟩).isValue = true := by
          intro j hj hne
          exact hok (j + 1) (Nat.succ_lt_succ hj) fun hc => hne (Nat.succ.inj hc)
        have hrest := ih i2 hi2 hf2 hok2
        simp [gather, hrest]
    | failed =>
      cases i with
      | zero => rfl
      | succ i2 =>
        have h0 := hok 0 (Nat.succ_pos _) (by simp)
        simp [ChildOutcome.isValue] at h0
    | timedOut =>
      cases i with
      | zero => rfl
      | succ i2 =>
        have h0 := hok 0 (Nat.succ_pos _) (by simp)
        simp [ChildOutcome.isValue] at h0

/-! ## Claim theorems -/

/-- C1: The join is a full barrier: the run issues exactly
childActivityCount + childTaskCount children; it ends in a Completed
TaskOutput precisely when every one of those children completed; and if any
one child fails or times out the terminal result is a Failed/TimedOut state,
never Completed, even if the other children succeeded. -/
theorem C1_join_is_full_barrier (data : TemporalPythonSdkIssue300Input)
    (env : ℕ → ChildOutcome) :
    (fanOut data).length = data.sub_activities.toNat + data.sub_workflows.toNat ∧
    ((TemporalPythonSdkIssue300.run data env).result.isCompleted = true ↔
      ∀ i, i < (fanOut data).length → (env i).isValue = true) ∧
    ((∃ i, i < (fanOut data).length ∧ (env i).isValue = false) →
      ∃ j k,
        (TemporalPythonSdkIssue300.run data env).result = RunResult.Failed j k ∨
        (TemporalPythonSdkIssue300.run data env).result = RunResult.TimedOut j k) := by
  have hiff : (TemporalPythonSdkIssue300.run data env).result.isCompleted = true ↔
      ∀ i, i < (fanOut data).length → (env i).isValue = true := by
    constructor
    · intro h i hi
      rw [run_result_eq] at h
      cases hg : gather ((List.range (fanOut data).length).map env) with
      | ok vs =>
        have hall := forall_isValue_of_gather_ok _ vs hg
        exact hall (env i) (List.mem_map.mpr ⟨i, List.mem_range.mpr hi, rfl⟩)
      | error e =>
        obtain ⟨j, e2⟩ := e
        rw [hg] at h
        cases e2 <;> simp [RunResult.isCompleted] at h
    · intro h
      have hall : ∀ o ∈ (List.range (fanOut data).length).map env, o.isValue = true := by
        intro o ho
        obtain ⟨i, hi, rfl⟩ := List.mem_map.mp ho
        exact h i (List.mem_range.mp hi)
      obtain ⟨vs, hvs⟩ := gather_ok_of_forall _ hall
      rw [run_result_eq, hvs]
      rfl
  refine ⟨length_fanOut data, hiff, ?_⟩
  rintro ⟨i, hi, hf⟩
  cases hres : (TemporalPythonSdkIssue300.run data env).result with
  | Completed output =>
    have hcomp : (TemporalPythonSdkIssue300.run data env).result.isCompleted = true := by
      rw [hres]
      rfl
    have hall := hiff.mp hcomp
    rw [hall i hi] at hf
    exact Bool.noConfusion hf
  | Failed j k => exact ⟨j, k, Or.inl rfl⟩
  | TimedOut j k => exact ⟨j, k, Or.inr rfl⟩

/-- C1 witness: on the trigger example input with all five children
succeeding, the run completes; with one child failing, it does not. -/
theorem C1_join_is_full_barrier_witness :
    (TemporalPythonSdkIssue300.run demoInput envAllOk).result.isCompleted = true ∧
    ∃ j k,
      (TemporalPythonSdkIssue300.run demoInput envTaskTimedOut).result = RunResult.Failed j k ∨
      (TemporalPythonSdkIssue300.run demoInput envTaskTimedOut).result = RunResult.TimedOut j k :=
  ⟨((C1_join_is_full_barrier demoInput envAllOk).2.1).mpr (by decide),
    (C1_join_is_full_barrier demoInput envTaskTimedOut).2.2 ⟨1, by decide, by decide⟩⟩

/-- C2: A completed run returns a TaskOutput whose text is
"{delay}s later..." — a function of the input delay alone, mentioning neither
the input text, the fan-out counts, nor the joined children's values. -/
theorem C2_output_text_from_delay_only (data : TemporalPythonSdkIssue300Input)
    (env : ℕ → ChildOutcome) (output : TemporalPythonSdkIssue300Output)
    (h : (TemporalPythonSdkIssue300.run data env).result = RunResult.Completed output) :
    output.text = toString data.timeout ++ "s later..." := by
  rw [run_result_eq] at h
  cases hg : gather ((List.range (fanOut data).length).map env) with
  | ok vs =>
    rw [hg] at h
    simp only [RunResult.Completed.injEq] at h
    rw [← h]
  | error e =>
    obtain ⟨j, e2⟩ := e
    rw [hg] at h
    cases e2 <;> simp at h

/-- C2 witness: on the trigger example input with all children succeeding, the
completed output's text is "5s later...". -/
theorem C2_output_text_from_delay_only_witness :
    (TemporalPythonSdkIssue300.run demoInput envAllOk).result =
      RunResult.Completed { text := "5s later..." } ∧
    ({ text := "5s later..." } : TemporalPythonSdkIssue300Output).text =
      toString demoInput.timeout ++ "s later..." :=
  ⟨by decide,
    C2_output_text_from_delay_only demoInput envAllOk { text := "5s later..." } (by decide)⟩

/-- C3: The leaf activity blocks for the input delay and returns
1000 × delay; in particular with delay 5 it returns 5000. -/
theorem C3_leaf_activity_contract (data : TemporalPythonSdkIssue300Input) :
    (temporal_python_sdk_issue_300 data).blockedFor = data.timeout ∧
    (temporal_python_sdk_issue_300 data).ret = 1000 * data.timeout ∧
    (data.timeout = 5 → (temporal_python_sdk_issue_300 data).ret = 5000) := by
  refine ⟨rfl, rfl, fun h => ?_⟩
  rw [show (temporal_python_sdk_issue_300 data).ret = 1000 * data.timeout from rfl, h]
  norm_num

/-- C3 witness: on the trigger example input (delay 5) the activity returns
5000. -/
theorem C3_leaf_activity_contract_witness :
    (temporal_python_sdk_issue_300 demoInput).ret = 5000 :=
  (C3_leaf_activity_contract demoInput).2.2 rfl

/-- C4: Every derived child-task input constructed by the fan-out has
sub_workflows = 0 and sub_activities = 0, so a child invocation on such an
input issues no children at all — recursion depth is exactly 1. -/
theorem C4_derived_children_never_fan_out (data : TemporalPythonSdkIssue300Input)
    (c : ChildCall) (hc : c ∈ fanOut data) (hk : c.kind = ChildKind.task) :
    c.arg.sub_workflows = 0 ∧ c.arg.sub_activities = 0 ∧ fanOut c.arg = [] := by
  simp only [fanOut] at hc
  rcases List.mem_append.mp hc with hmem | hmem
  · simp only [activityCalls] at hmem
    obtain ⟨i, hi, rfl⟩ := List.mem_map.mp hmem
    simp [ChildCall.kind] at hk
  · simp only [childWorkflowCalls] at hmem
    obtain ⟨i, hi, rfl⟩ := List.mem_map.mp hmem
    refine ⟨rfl, rfl, ?_⟩
    simp [fanOut, activityCalls, childWorkflowCalls, pyRange, ChildCall.arg]

/-- C4 witness: the one derived child of a concrete single-task fan-out has a
fan-out of its own that is empty. -/
theorem C4_derived_children_never_fan_out_witness :
    fanOut { text := "t-0", timeout := 1, sub_workflows := 0, sub_activities := 0 } = [] :=
  (C4_derived_children_never_fan_out
      { text := "t", timeout := 1, sub_workflows := 1, sub_activities := 0 }
      (ChildCall.childWorkflowCall WORKFLOW_NAME
        { text := "t-0", timeout := 1, sub_workflows := 0, sub_activities := 0 }
        ONE_MINUTE ONE_MINUTE NO_RETRY)
      (by decide) (by decide)).2.2

/-- C5: Fan-out index determinism: the i-th derived child task's input text is
the parent text followed by "-i", and that child sits at position
sub_activities + i of the issued-children list, independently of any
completion order. -/
theorem C5_fanout_index_determinism (data : TemporalPythonSdkIssue300Input) (i : ℕ)
    (h : i < data.sub_workflows.toNat) :
    ((childWorkflowCalls data)[i]?.map fun c => c.arg.text) =
      some (data.text ++ "-" ++ toString i) ∧
    (fanOut data)[data.sub_activities.toNat + i]? = (childWorkflowCalls data)[i]? := by
  constructor
  · have hsome : (childWorkflowCalls data)[i]? =
        some (ChildCall.childWorkflowCall WORKFLOW_NAME
          { text := data.text ++ "-" ++ toString i, timeout := data.timeout,
            sub_workflows := 0, sub_activities := 0 }
          ONE_MINUTE ONE_MINUTE NO_RETRY) := by
      simp only [childWorkflowCalls, pyRange, List.getElem?_map, List.getElem?_range h]
      rfl
    rw [hsome]
    rfl
  · simp only [fanOut]
    rw [List.getElem?_append_right (by rw [length_activityCalls]; exact Nat.le_add_right _ _)]
    have hidx : data.sub_activities.toNat + i - (activityCalls data).length = i := by
      rw [length_activityCalls]
      omega
    rw [hidx]

/-- C5 witness: in the trigger example (three activities, two child tasks),
the derived child task of index 1 is labelled "hello world-1" and sits at
fan-out position 3 + 1. -/
theorem C5_fanout_index_determinism_witness :
    ((childWorkflowCalls demoInput)[1]?.map fun c => c.arg.text) =
      some (demoInput.text ++ "-" ++ toString 1) ∧
    (fanOut demoInput)[demoInput.sub_activities.toNat + 1]? =
      (childWorkflowCalls demoInput)[1]? :=
  C5_fanout_index_determinism demoInput 1 (by decide)

/-- C6: Per-edge policy: every activity child carries a copy of the parent's
input and a 10-minute start-to-close timeout; every derived child task carries
a 1-minute execution timeout, a 1-minute run timeout and the no-retry policy,
whose maximum_attempts is 1. -/
theorem C6_per_edge_timeout_and_retry (data : TemporalPythonSdkIssue300Input)
    (c : ChildCall) (hc : c ∈ fanOut data) :
    (c.kind = ChildKind.activity →
      c.arg = data ∧ c.stcTimeout = some TEN_MINUTES) ∧
    (c.kind = ChildKind.task →
      c.execTimeout = some ONE_MINUTE ∧ c.runTimeout = some ONE_MINUTE ∧
      c.retryPolicyOf = some NO_RETRY) ∧
    NO_RETRY.maximum_attempts = 1 := by
  simp only [fanOut] at hc
  rcases List.mem_append.mp hc with hmem | hmem
  · simp only [activityCalls] at hmem
    obtain ⟨i, hi, rfl⟩ := List.mem_map.mp hmem
    refine ⟨fun _ => ⟨rfl, rfl⟩, fun hk => ?_, rfl⟩
    simp [ChildCall.kind] at hk
  · simp only [childWorkflowCalls] at hmem
    obtain ⟨i, hi, rfl⟩ := List.mem_map.mp hmem
    refine ⟨fun hk => ?_, fun _ => ⟨rfl, rfl, rfl⟩, rfl⟩
    simp [ChildCall.kind] at hk

/-- C6 witness: a concrete activity child of the trigger example carries the
parent input and the 10-minute timeout, and the no-retry policy allows one
attempt. -/
theorem C6_per_edge_timeout_and_retry_witness :
    (ChildCall.activityCall WORKFLOW_NAME demoInput TEN_MINUTES).arg = demoInput ∧
    (ChildCall.activityCall WORKFLOW_NAME demoInput TEN_MINUTES).stcTimeout =
      some TEN_MINUTES ∧
    NO_RETRY.maximum_attempts = 1 := by
  have h := C6_per_edge_timeout_and_retry demoInput
      (ChildCall.activityCall WORKFLOW_NAME demoInput TEN_MINUTES) (by decide)
  exact ⟨(h.1 rfl).1, (h.1 rfl).2, h.2.2⟩

/-- C9: Activity children are issued under WORKFLOW_NAME, the workflow's
constant; since WORKFLOW_NAME and ACTIVITY_NAME are the identical string
"temporal-sdk-python-issue-300", the invoked name still equals the name the
activity function is registered under. -/
theorem C9_activity_invoked_under_workflow_name (data : TemporalPythonSdkIssue300Input)
    (c : ChildCall) (hc : c ∈ activityCalls data) :
    WORKFLOW_NAME = ACTIVITY_NAME ∧
    ACTIVITY_NAME = "temporal-sdk-python-issue-300" ∧
    c.calledName = WORKFLOW_NAME ∧
    c.calledName = registeredActivityName := by
  simp only [activityCalls] at hc
  obtain ⟨i, hi, rfl⟩ := List.mem_map.mp hc
  exact ⟨rfl, rfl, rfl, rfl⟩

/-- C9 witness: a concrete activity child of the trigger example is invoked
under the registered activity name. -/
theorem C9_activity_invoked_under_workflow_name_witness :
    (ChildCall.activityCall WORKFLOW_NAME demoInput TEN_MINUTES).calledName =
      registeredActivityName ∧
    WORKFLOW_NAME = ACTIVITY_NAME := by
  have h := C9_activity_invoked_under_workflow_name demoInput
      (ChildCall.activityCall WORKFLOW_NAME demoInput TEN_MINUTES) (by decide)
  exact ⟨h.2.2.2, h.1⟩

/-- C7: If exactly one issued child fails (or times out) at the join barrier,
the failing parent's terminal state blames that child by its fan-out index and
its kind — the kind being exactly that of the child at that position of the
issued list. -/
theorem C7_join_failure_identifies_child (data : TemporalPythonSdkIssue300Input)
    (env : ℕ → ChildOutcome) (i : ℕ) (hi : i < (fanOut data).length)
    (hfail : (env i).isValue = false)
    (hok : ∀ j, j < (fanOut data).length → j ≠ i → (env j).isValue = true) :
    kindAt data i = ((fanOut data).get ⟨i, hi⟩).kind ∧
    ((TemporalPythonSdkIssue300.run data env).result =
        RunResult.Failed i (kindAt data i) ∨
      (TemporalPythonSdkIssue300.run data env).result =
        RunResult.TimedOut i (kindAt data i)) := by
  have hlen : ((List.range (fanOut data).length).map env).length = (fanOut data).length := by
    simp
  have hi2 : i < ((List.range (fanOut data).length).map env).length := by
    simpa using hi
  have hget : ∀ j (hj : j < ((List.range (fanOut data).length).map env).length),
      ((List.range (fanOut data).length).map env).get ⟨j, hj⟩ = env j := by
    intro j hj
    simp [List.get_eq_getElem, List.getElem_map, List.getElem_range]
  have hgather : gather ((List.range (fanOut data).length).map env) =
      Except.error (i, ((List.range (fanOut data).length).map env).get ⟨i, hi2⟩) :=
    gather_error_of_unique _ i hi2 (by rw [hget]; exact hfail)
      (fun j hj hne => by rw [hget]; exact hok j (by simpa using hj) hne)
  have henv : ((List.range (fanOut data).length).map env).get ⟨i, hi2⟩ = env i := hget i hi2
  constructor
  · unfold kindAt
    rw [List.getElem?_eq_getElem hi]
    simp [List.get_eq_getElem]
  · rw [run_result_eq, hgather, henv]
    cases hv : env i with
    | value v => rw [hv] at hfail; exact Bool.noConfusion hfail
    | failed => exact Or.inl rfl
    | timedOut => exact Or.inr rfl

/-- C7 witness: on an input with one activity and one child task, the child
task (fan-out position 1) timing out while the activity succeeds makes the
parent fail blaming index 1 of kind task. -/
theorem C7_join_failure_identifies_child_witness :
    kindAt oneEachInput 1 = ChildKind.task ∧
    ((TemporalPythonSdkIssue300.run oneEachInput envTaskTimedOut).result =
        RunResult.Failed 1 (kindAt oneEachInput 1) ∨
      (TemporalPythonSdkIssue300.run oneEachInput envTaskTimedOut).result =
        RunResult.TimedOut 1 (kindAt oneEachInput 1)) := by
  have h := C7_join_failure_identifies_child oneEachInput
      envTaskTimedOut 1 (by decide) (by decide) (by decide)
  exact ⟨by decide, h.2⟩

/-- C8: Zero fan-out is valid and degenerate: with both counts 0 the run
issues no children at all, sleeps for the delay, and completes (the join is
over an empty set) with the delay-derived output. -/
theorem C8_zero_fanout_degenerate (data : TemporalPythonSdkIssue300Input)
    (env : ℕ → ChildOutcome) (hw : data.sub_workflows = 0)
    (ha : data.sub_activities = 0) :
    fanOut data = [] ∧
    (TemporalPythonSdkIssue300.run data env).children = [] ∧
    (TemporalPythonSdkIssue300.run data env).sleptFor = data.timeout ∧
    (TemporalPythonSdkIssue300.run data env).result =
      RunResult.Completed { text := toString data.timeout ++ "s later..." } := by
  have hfan : fanOut data = [] := by
    simp [fanOut, activityCalls, childWorkflowCalls, pyRange, hw, ha]
  refine ⟨hfan, ?_, rfl, ?_⟩
  · rw [run_children_eq, hfan]
  · rw [run_result_eq, hfan]
    rfl

/-- C8 witness: a concrete zero-fan-out input completes with no children. -/
theorem C8_zero_fanout_degenerate_witness :
    fanOut zeroFanOutInput = [] ∧
    (TemporalPythonSdkIssue300.run zeroFanOutInput envAllOk).children = [] ∧
    (TemporalPythonSdkIssue300.run zeroFanOutInput envAllOk).sleptFor =
      zeroFanOutInput.timeout ∧
    (TemporalPythonSdkIssue300.run zeroFanOutInput envAllOk).result =
      RunResult.Completed { text := toString zeroFanOutInput.timeout ++ "s later..." } :=
  C8_zero_fanout_degenerate zeroFanOutInput envAllOk rfl rfl

/-- Runs on inputs with the same delay and the same fan-out list are
identical. -/
theorem run_congr (d d2 : TemporalPythonSdkIssue300Input) (env : ℕ → ChildOutcome)
    (ht : d.timeout = d2.timeout) (hf : fanOut d = fanOut d2) :
    TemporalPythonSdkIssue300.run d env = TemporalPythonSdkIssue300.run d2 env := by
  have hk : kindAt d = kindAt d2 := funext fun i => by unfold kindAt; rw [hf]
  simp only [TemporalPythonSdkIssue300.run, hf, ht, hk]

/-- Run results agree on inputs with the same delay whose fan-outs have the
same length and the same kinds. -/
theorem run_result_congr (d d2 : TemporalPythonSdkIssue300Input) (env : ℕ → ChildOutcome)
    (ht : d.timeout = d2.timeout)
    (hlen : (fanOut d).length = (fanOut d2).length)
    (hkind : (fanOut d).map ChildCall.kind = (fanOut d2).map ChildCall.kind) :
    (TemporalPythonSdkIssue300.run d env).result =
      (TemporalPythonSdkIssue300.run d2 env).result := by
  have hk : kindAt d = kindAt d2 := funext fun i => by
    unfold kindAt
    rw [← List.getElem?_map, hkind, List.getElem?_map]
  simp only [run_result_eq, hlen, ht, hk]

/-- C10 counterexample: with sub_workflows = -1 and sub_activities = 1 the run
is not identical to the run on the same input with sub_workflows set to 0: the
activity child carries the parent's input verbatim, so its payload still
records the -1. -/
theorem C10_counterexample_payload_differs :
    TemporalPythonSdkIssue300.run
        { text := "hello world", timeout := 5, sub_workflows := -1, sub_activities := 1 }
        envAllOk ≠
      TemporalPythonSdkIssue300.run
        { text := "hello world", timeout := 5, sub_workflows := 0, sub_activities := 1 }
        envAllOk := by
  decide

/-- C10 (amended): a negative count is clamped to zero by range-based fan-out.
With sub_activities negative the run is literally identical to the run with
sub_activities set to 0.  With sub_workflows negative no child task is
created, and the run's sleep, terminal result, child kinds and every activity
child's execution (block duration and return value) coincide with those for
sub_workflows set to 0 — only the inert parent-input copy inside activity
payloads still records the negative count. -/
theorem C10_negative_counts_clamped (data : TemporalPythonSdkIssue300Input)
    (env : ℕ → ChildOutcome) :
    (data.sub_activities < 0 →
      TemporalPythonSdkIssue300.run data env =
        TemporalPythonSdkIssue300.run { data with sub_activities := 0 } env) ∧
    (data.sub_workflows < 0 →
      childWorkflowCalls data = [] ∧
      (TemporalPythonSdkIssue300.run data env).sleptFor =
        (TemporalPythonSdkIssue300.run { data with sub_workflows := 0 } env).sleptFor ∧
      (TemporalPythonSdkIssue300.run data env).result =
        (TemporalPythonSdkIssue300.run { data with sub_workflows := 0 } env).result ∧
      (TemporalPythonSdkIssue300.run data env).children.map ChildCall.kind =
        ((TemporalPythonSdkIssue300.run { data with sub_workflows := 0 } env).children.map
          ChildCall.kind) ∧
      ((TemporalPythonSdkIssue300.run data env).children.map fun c =>
          temporal_python_sdk_issue_300 c.arg) =
        ((TemporalPythonSdkIssue300.run { data with sub_workflows := 0 } env).children.map
          fun c => temporal_python_sdk_issue_300 c.arg)) := by
  constructor
  · intro ha
    apply run_congr
    · rfl
    · simp [fanOut, activityCalls, childWorkflowCalls, pyRange,
        Int.toNat_of_nonpos ha.le]
  · intro hw
    have hcw : childWorkflowCalls data = [] := by
      simp [childWorkflowCalls, pyRange, Int.toNat_of_nonpos hw.le]
    have hlen : (fanOut data).length =
        (fanOut { data with sub_workflows := 0 }).length := by
      simp [length_fanOut, Int.toNat_of_nonpos hw.le]
    have hkind : (fanOut data).map ChildCall.kind =
        (fanOut { data with sub_workflows := 0 }).map ChildCall.kind := by
      simp [fanOut, activityCalls, childWorkflowCalls, pyRange,
        Int.toNat_of_nonpos hw.le, ChildCall.kind, List.map_map, Function.comp]
    have hexec : ((fanOut data).map fun c => temporal_python_sdk_issue_300 c.arg) =
        ((fanOut { data with sub_workflows := 0 }).map fun c =>
          temporal_python_sdk_issue_300 c.arg) := by
      simp [fanOut, activityCalls, childWorkflowCalls, pyRange,
        Int.toNat_of_nonpos hw.le, ChildCall.arg, temporal_python_sdk_issue_300,
        List.map_map, Function.comp]
    exact ⟨hcw, rfl, run_result_congr data { data with sub_workflows := 0 } env rfl hlen hkind,
      hkind, hexec⟩

/-- C10 witness: the amended facts at the concrete input with
sub_workflows = -1 and one activity child. -/
theorem C10_negative_counts_clamped_witness :
    childWorkflowCalls
        { text := "hello world", timeout := 5, sub_workflows := -1, sub_activities := 1 } = [] ∧
    (TemporalPythonSdkIssue300.run
        { text := "hello world", timeout := 5, sub_workflows := -1, sub_activities := 1 }
        envAllOk).result =
      (TemporalPythonSdkIssue300.run
        { text := "hello world", timeout := 5, sub_workflows := 0, sub_activities := 1 }
        envAllOk).result := by
  have h := (C10_negative_counts_clamped
      { text := "hello world", timeout := 5, sub_workflows := -1, sub_activities := 1 }
      envAllOk).2 (by decide)
  exact ⟨h.1, h.2.2.1⟩

end Issue300
